import Mathlib

set_option maxHeartbeats 1000000

/-!
Shallow embedding of poppler's `utils/pdfsig.cc` command-line tool.

The tool parses flags, opens a PDF document, and then either lists NSS
certificate nicknames, adds a new signature, signs an existing signature
field, dumps raw signature bytes, or prints a per-field validation report.
We embed the control flow of `main` (and its helpers `dumpSignature`,
`getAvailableSigningCertificates`, `getReadableSigState`,
`getReadableCertState`) as a pure function from the parsed configuration and
an abstract environment (document contents, NSS store behaviour, engine
results, random source) to an exit code together with a chronological trace
of output/effect events.
-/

/-- `SignatureValidationStatus` as consumed by `pdfsig.cc` (from the
signature engine's `SignatureInfo.h`). -/
inductive SignatureValidationStatus where
  | SIGNATURE_VALID
  | SIGNATURE_INVALID
  | SIGNATURE_DIGEST_MISMATCH
  | SIGNATURE_DECODING_ERROR
  | SIGNATURE_NOT_VERIFIED
  | SIGNATURE_GENERIC_ERROR
  deriving DecidableEq, Repr, Inhabited

/-- `CertificateValidationStatus` as consumed by `pdfsig.cc`. -/
inductive CertificateValidationStatus where
  | CERTIFICATE_TRUSTED
  | CERTIFICATE_UNTRUSTED_ISSUER
  | CERTIFICATE_UNKNOWN_ISSUER
  | CERTIFICATE_REVOKED
  | CERTIFICATE_EXPIRED
  | CERTIFICATE_NOT_VERIFIED
  | CERTIFICATE_GENERIC_ERROR
  deriving DecidableEq, Repr, Inhabited

/-- Signature subtype tags used in `pdfsig.cc`'s switch on
`getSignatureType()`. -/
inductive SignatureType where
  | adbe_pkcs7_sha1
  | adbe_pkcs7_detached
  | ETSI_CAdES_detached
  | unknown_signature_type
  deriving DecidableEq, Repr, Inhabited

/-- Hash algorithm tags used in `pdfsig.cc`'s switch on
`getHashAlgorithm()`. -/
inductive HashAlgorithm where
  | HASH_AlgMD2
  | HASH_AlgMD5
  | HASH_AlgSHA1
  | HASH_AlgSHA256
  | HASH_AlgSHA384
  | HASH_AlgSHA512
  | HASH_AlgSHA224
  | HASH_AlgNULL
  deriving DecidableEq, Repr, Inhabited

/-- `getReadableSigState` from `pdfsig.cc`. -/
def getReadableSigState : SignatureValidationStatus → String
  | .SIGNATURE_VALID => "Signature is Valid."
  | .SIGNATURE_INVALID => "Signature is Invalid."
  | .SIGNATURE_DIGEST_MISMATCH => "Digest Mismatch."
  | .SIGNATURE_DECODING_ERROR => "Document isn't signed or corrupted data."
  | .SIGNATURE_NOT_VERIFIED => "Signature has not yet been verified."
  | _ => "Unknown Validation Failure."

/-- `getReadableCertState` from `pdfsig.cc`. -/
def getReadableCertState : CertificateValidationStatus → String
  | .CERTIFICATE_TRUSTED => "Certificate is Trusted."
  | .CERTIFICATE_UNTRUSTED_ISSUER => "Certificate issuer isn't Trusted."
  | .CERTIFICATE_UNKNOWN_ISSUER => "Certificate issuer is unknown."
  | .CERTIFICATE_REVOKED => "Certificate has been Revoked."
  | .CERTIFICATE_EXPIRED => "Certificate has Expired"
  | .CERTIFICATE_NOT_VERIFIED => "Certificate has not yet been verified."
  | _ => "Unknown issue with Certificate or corrupted data."

/-- The hash-algorithm name printed by the report loop's switch. -/
def hashAlgorithmName : HashAlgorithm → String
  | .HASH_AlgMD2 => "MD2"
  | .HASH_AlgMD5 => "MD5"
  | .HASH_AlgSHA1 => "SHA1"
  | .HASH_AlgSHA256 => "SHA-256"
  | .HASH_AlgSHA384 => "SHA-384"
  | .HASH_AlgSHA512 => "SHA-512"
  | .HASH_AlgSHA224 => "SHA-224"
  | .HASH_AlgNULL => "unknown"

/-- The signature-type name printed by the report loop's switch. -/
def signatureTypeName : SignatureType → String
  | .adbe_pkcs7_sha1 => "adbe.pkcs7.sha1"
  | .adbe_pkcs7_detached => "adbe.pkcs7.detached"
  | .ETSI_CAdES_detached => "ETSI.CAdES.detached"
  | .unknown_signature_type => "unknown"

/-- A `FormFieldSignature` as observed by `pdfsig.cc`: the raw signature
bytes (`getSignature`, null when absent), the checked signature and the file
size its call reports (`getCheckedSignature(&file_size)`), the signature
subtype, the widget count, the signed byte-range bounds, and the fields of
the `SignatureInfo` that `validateSignature` returns for it in this run. -/
structure FormFieldSignature where
  signature : Option (List Nat)
  checkedSignature : Option (List Nat)
  checkedFileSize : Int
  signatureType : SignatureType
  numWidgets : Nat
  signedRangeBounds : List Int
  signerName : String
  subjectDN : String
  signingTime : Int
  hashAlgorithm : HashAlgorithm
  sigValStatus : SignatureValidationStatus
  certValStatus : CertificateValidationStatus
  deriving DecidableEq, Repr, Inhabited

/-- The document handle as observed by `pdfsig.cc`: whether `isOk()` holds,
whether `getPage(1)` is non-null, and the list returned by
`getSignatureFields()` (in document order). -/
structure PDFDoc where
  isOk : Bool
  hasPageOne : Bool
  signatureFields : List FormFieldSignature
  deriving DecidableEq, Repr, Inhabited

/-- The flag-backed global variables of `pdfsig.cc` after `parseArgs`. -/
structure Config where
  nssPassword : String
  dontVerifyCert : Bool
  noOCSPRevocationCheck : Bool
  useAIACertFetch : Bool
  dumpSignatures : Bool
  addNewSignature : Bool
  newSignatureFieldName : String
  signatureNumber : Int
  etsiCAdESdetached : Bool
  certNickname : String
  password : String
  digestName : String
  reason : String
  listNicknames : Bool
  printVersion : Bool
  printHelp : Bool
  deriving DecidableEq, Repr, Inhabited

/-- The environment outside `pdfsig.cc`'s own control flow: the result of
`parseArgs`, the positional argument count (`argc` counting `argv[0]`), the
input and output paths, the opened document, how the NSS store drives the
password callback (whether it asks at all, and whether it rejects a supplied
password and asks again), the nicknames it holds, whether the engine's
signing call succeeds, and the stream of draws of the random source. -/
structure Env where
  parseOk : Bool
  argc : Nat
  inputFile : String
  outputFile : String
  doc : PDFDoc
  nssNeedsPassword : Bool
  nssRejectsPassword : Bool
  certsAvailable : List String
  engineSignSuccess : Bool
  randomStream : Nat → Nat

/-- One printed line or externally visible effect of a `pdfsig` run, in
chronological order. Effect events (`openDocument`, `docSignCall`,
`setSignatureTypeCall`, `signDocumentCall`) record calls into the document
engine. -/
inductive Event where
  | usage
  | versionInfo
  | nssPasswordNeededMsg
  | nssWrongPasswordMsg
  | noCertsAvailableMsg
  | certNicknamesHeader
  | nickLine (s : String)
  | openDocument (file : String)
  | outputFilenameNeededMsg
  | nicknameNeededMsg
  | etsiUnsupportedMsg
  | digestUnsupportedMsg
  | firstPageErrorMsg
  | docSignCall (outFile : String) (nick : String) (fieldName : String)
  | badSignatureNumberMsg (file : String) (n : Int)
  | alreadySignedMsg (n : Int)
  | setSignatureTypeCall (fieldIndex : Nat) (t : SignatureType)
  | unexpectedWidgetsMsg (n : Nat)
  | signDocumentCall (outFile : String) (nick : String) (digest : String)
  | dumpingHeader (count : Nat)
  | cannotDumpMsg (sigNum : Nat)
  | dumpSigLine (sigNum : Nat) (bytes : Nat) (path : String)
  | reportHeader (file : String)
  | noSignaturesMsg (file : String)
  | sigHeader (n : Nat)
  | signerCommonName (s : String)
  | signerDN (s : String)
  | signingTimeLine (t : Int)
  | hashAlgorithmLine (s : String)
  | signatureTypeLine (s : String)
  | signedRangesLine (r : List Int)
  | totalDocumentSigned
  | notTotalDocumentSigned
  | signatureValidationLine (s : String)
  | certificateValidationLine (s : String)
  deriving DecidableEq, Repr, Inhabited

/-- Modelled from the spec: `numberOfCharacters` (declared in
`utils/numberofcharacters.h`, not part of this excerpt) is the "digit-width
of the total signature count", i.e. the number of decimal digits of `n`. -/
def numberOfCharacters (n : Nat) : Nat :=
  (Nat.toDigits 10 n).length

/-- Modelled from the spec: the integer formatting performed by
`GooString::format("{{0:s}}.sig{{1:{0:d}d}}", sigCountLength)` (GooString is
not part of this excerpt); per the spec the index is "zero-padded to the
digit-width of the total signature count": decimal digits of `n`, left-filled
with `'0'` to `width` characters. -/
def formatIntWidth (width : Nat) (n : Nat) : String :=
  String.mk (List.replicate (width - (Nat.toDigits 10 n).length) '0' ++ Nat.toDigits 10 n)

/-- Modelled from the spec: `gbasename` (from `goo/gbasename.h`, not part of
this excerpt) returns the "basename-of-input", the final path component. -/
def gbasename (s : String) : String :=
  String.mk (s.data.foldl (fun acc c => if c = '/' then [] else acc ++ [c]) [])

/-- `dumpSignature` from `pdfsig.cc`: with no raw signature content it
prints "Cannot dump signature #N" and fails; otherwise it writes the bytes
to `<basename>.sig<N>` (`N` formatted at the digit-width of the total count)
and prints "Signature #N (b bytes) => path". -/
def dumpSignature (sig_num : Nat) (sigCount : Nat) (s : FormFieldSignature) (filename : String) :
    Bool × List Event :=
  match s.signature with
  | none => (false, [Event.cannotDumpMsg sig_num])
  | some bytes =>
      let path := gbasename filename ++ ".sig" ++ formatIntWidth (numberOfCharacters sigCount) sig_num
      (true, [Event.dumpSigLine sig_num bytes.length path])

/-- The dump loop of `main`: iterate `i = 0 .. sigCount-1`, calling
`dumpSignature(i, sigCount, signatures.at(i), fileName)`; abort with exit
status 3 on the first failure, else exit 0. -/
def dumpLoop (filename : String) (sigCount : Nat) : List FormFieldSignature → Nat → Nat × List Event
  | [], _ => (0, [])
  | f :: rest, i =>
      let r := dumpSignature i sigCount f filename
      if r.1 then
        let r2 := dumpLoop filename sigCount rest (i + 1)
        (r2.1, r.2 ++ r2.2)
      else (3, r.2)

/-- `getAvailableSigningCertificates` (the wrapper in `pdfsig.cc`): installs
a password callback; if the store invokes it and `-nss-pwd` was empty the
run fails with "Password is needed"; if the store invokes it a second time
(password rejected) the run fails with "Password was not accepted"; else it
returns the store's certificate list. -/
def getAvailableSigningCertificates (cfg : Config) (env : Env) :
    Bool × List String × List Event :=
  if env.nssNeedsPassword then
    if cfg.nssPassword.length > 0 then
      if env.nssRejectsPassword then
        (true, [], [Event.nssWrongPasswordMsg])
      else (false, env.certsAvailable, [])
    else (true, [], [Event.nssPasswordNeededMsg])
  else (false, env.certsAvailable, [])

/-- The character the field-name generator appends for a drawn `value`:
`48 + value` for `value < 10`, else `65 + (value - 10)`. -/
def hexCharOfValue (v : Nat) : Char :=
  if v < 10 then Char.ofNat (48 + v) else Char.ofNat (65 + (v - 10))

/-- The `i`-th draw of `std::uniform_int_distribution<>(1, 15)` over the
seeded generator: the distribution yields exactly the integers `1..15`, so we
model the draw by clamping the abstract source value into that range. -/
def distribValue (stream : Nat → Nat) (i : Nat) : Nat :=
  1 + stream i % 15

/-- The support of `std::uniform_int_distribution<>(1, 15)`: `{1, ..., 15}`. -/
def distribSupport : List Nat :=
  (List.range 15).map (fun k => k + 1)

/-- The random field name generated when `-new-signature-field-name` is
empty: 32 characters, each `hexCharOfValue` of a draw of the distribution. -/
def genFieldName (stream : Nat → Nat) : String :=
  String.mk ((List.range 32).map (fun i => hexCharOfValue (distribValue stream i)))

/-- The report loop body of `main` for field index `i` (0-based): header
with ordinal `i+1`, signer data, hash algorithm, signature type; when the
signed-range bounds have length 4, the ranges line and the total-document
check (`getCheckedSignature` non-null and its reported file size equal to
`ranges[3]`); the validation line; and, unless validation was not `VALID` or
`-nocert` was given, the certificate-validation line. -/
def reportField (cfg : Config) (i : Nat) (f : FormFieldSignature) : List Event :=
  [Event.sigHeader (i + 1),
   Event.signerCommonName f.signerName,
   Event.signerDN f.subjectDN,
   Event.signingTimeLine f.signingTime,
   Event.hashAlgorithmLine (hashAlgorithmName f.hashAlgorithm),
   Event.signatureTypeLine (signatureTypeName f.signatureType)]
  ++ (if f.signedRangeBounds.length = 4 then
        [Event.signedRangesLine f.signedRangeBounds]
        ++ (if f.checkedSignature.isSome ∧ f.checkedFileSize = f.signedRangeBounds.getD 3 0 then
              [Event.totalDocumentSigned]
            else [Event.notTotalDocumentSigned])
      else [])
  ++ [Event.signatureValidationLine (getReadableSigState f.sigValStatus)]
  ++ (if f.sigValStatus ≠ SignatureValidationStatus.SIGNATURE_VALID ∨ cfg.dontVerifyCert = true then
        []
      else [Event.certificateValidationLine (getReadableCertState f.certValStatus)])

/-- A placeholder `FormFieldSignature` for the out-of-bounds case of
`signatures.at(...)` (never reached under the bound check `main` performs). -/
def dummyField : FormFieldSignature := default

/-- `main` from `pdfsig.cc` as a function from the parsed configuration and
the environment to the exit status and the chronological event trace.
Control flow mirrors the source: parse failure (99); `-v` / `-h` (0);
`-list-nicks` (before any document access); missing input filename (99);
document open (the `openDocument` event) and `isOk` check (1);
`-add-signature` with `-sign N`, `N > 0` (99); the add-signature branch; the
sign-existing-field branch; stray extra filename (99); then dump or report,
or the no-signatures exit (2). -/
def pdfsigMain (cfg : Config) (env : Env) : Nat × List Event :=
  if env.parseOk = false then (99, [Event.usage])
  else if cfg.printVersion = true then (0, [Event.versionInfo])
  else if cfg.printHelp = true then (0, [Event.versionInfo, Event.usage])
  else if cfg.listNicknames = true then
    let r := getAvailableSigningCertificates cfg env
    if r.1 then (2, r.2.2)
    else if r.2.1.isEmpty then (0, r.2.2 ++ [Event.noCertsAvailableMsg])
    else (0, r.2.2 ++ [Event.certNicknamesHeader] ++ r.2.1.map Event.nickLine)
  else if env.argc < 2 then (99, [Event.usage])
  else
    let openEv := [Event.openDocument env.inputFile]
    if env.doc.isOk = false then (1, openEv)
    else if cfg.addNewSignature = true ∧ 0 < cfg.signatureNumber then
      (99, openEv ++ [Event.usage])
    else if cfg.addNewSignature = true then
      if env.argc = 2 then (2, openEv ++ [Event.outputFilenameNeededMsg])
      else if cfg.certNickname.length = 0 then (2, openEv ++ [Event.nicknameNeededMsg])
      else if cfg.etsiCAdESdetached = true then (2, openEv ++ [Event.etsiUnsupportedMsg])
      else if cfg.digestName ≠ "SHA256" then (2, openEv ++ [Event.digestUnsupportedMsg])
      else if env.doc.hasPageOne = false then (2, openEv ++ [Event.firstPageErrorMsg])
      else
        let r := getAvailableSigningCertificates cfg env
        if r.1 then (2, openEv ++ r.2.2)
        else
          let fieldName :=
            if cfg.newSignatureFieldName.length = 0 then genFieldName env.randomStream
            else cfg.newSignatureFieldName
          let evs2 := openEv ++ r.2.2 ++ [Event.docSignCall env.outputFile cfg.certNickname fieldName]
          if env.engineSignSuccess then (0, evs2) else (3, evs2)
    else
      let signatures := env.doc.signatureFields
      let sigCount := signatures.length
      if 0 < cfg.signatureNumber then
        if env.argc = 2 then (2, openEv ++ [Event.outputFilenameNeededMsg])
        else if (sigCount : Int) < cfg.signatureNumber then
          (2, openEv ++ [Event.badSignatureNumberMsg env.inputFile cfg.signatureNumber])
        else if cfg.certNickname.length = 0 then (2, openEv ++ [Event.nicknameNeededMsg])
        else
          let r := getAvailableSigningCertificates cfg env
          if r.1 then (2, openEv ++ r.2.2)
          else
            let idx := (cfg.signatureNumber - 1).toNat
            let ffs := signatures.getD idx dummyField
            if ffs.checkedSignature.isSome then
              (2, openEv ++ r.2.2 ++ [Event.alreadySignedMsg cfg.signatureNumber])
            else
              let evsEtsi :=
                if cfg.etsiCAdESdetached = true then
                  [Event.setSignatureTypeCall idx SignatureType.ETSI_CAdES_detached]
                else []
              if ffs.numWidgets ≠ 1 then
                (2, openEv ++ r.2.2 ++ evsEtsi ++ [Event.unexpectedWidgetsMsg ffs.numWidgets])
              else
                let evs2 := openEv ++ r.2.2 ++ evsEtsi
                  ++ [Event.signDocumentCall env.outputFile cfg.certNickname cfg.digestName]
                if env.engineSignSuccess then (0, evs2) else (3, evs2)
      else if 2 < env.argc then (99, openEv ++ [Event.usage])
      else if 1 ≤ sigCount then
        if cfg.dumpSignatures = true then
          let r := dumpLoop env.inputFile sigCount signatures 0
          (r.1, openEv ++ [Event.dumpingHeader sigCount] ++ r.2)
        else
          (0, openEv ++ [Event.reportHeader env.inputFile]
            ++ (signatures.enum.map (fun p => reportField cfg p.1 p.2)).flatten)
      else (2, openEv ++ [Event.noSignaturesMsg env.inputFile])

/-- The spec's `digit_width(count)`: the number of decimal digits of `n`. -/
def digit_width (n : Nat) : Nat :=
  (Nat.toDigits 10 n).length

/-- The spec's `zero_pad(idx, w)`: the decimal representation of `idx`
padded with leading zeros to width `w`. -/
def zero_pad (idx w : Nat) : String :=
  String.mk (List.replicate (w - (Nat.toDigits 10 idx).length) '0' ++ Nat.toDigits 10 idx)

/-- The spec's formula for a dump-mode output file name:
`basename(input) + ".sig" + zero_pad(index, digit_width(count))`. -/
def specDumpName (input : String) (index count : Nat) : String :=
  gbasename input ++ ".sig" ++ zero_pad index (digit_width count)

/-- A configuration with every flag at its `pdfsig.cc` start-up value. -/
def baseConfig : Config :=
  { nssPassword := "", dontVerifyCert := false, noOCSPRevocationCheck := false,
    useAIACertFetch := false, dumpSignatures := false, addNewSignature := false,
    newSignatureFieldName := "", signatureNumber := 0, etsiCAdESdetached := false,
    certNickname := "", password := "", digestName := "SHA256", reason := "",
    listNicknames := false, printVersion := false, printHelp := false }

/-- A well-formed document with no signature fields. -/
def emptyDoc : PDFDoc :=
  { isOk := true, hasPageOne := true, signatureFields := [] }

/-- An environment for a plain `pdfsig in.pdf` invocation on `emptyDoc`. -/
def baseEnv : Env :=
  { parseOk := true, argc := 2, inputFile := "in.pdf", outputFile := "out.pdf",
    doc := emptyDoc, nssNeedsPassword := false, nssRejectsPassword := false,
    certsAvailable := [], engineSignSuccess := true, randomStream := fun _ => 0 }

/-- A field carrying a valid, document-covering signature. -/
def signedField : FormFieldSignature :=
  { signature := some [1, 2, 3], checkedSignature := some [1, 2, 3], checkedFileSize := 100,
    signatureType := SignatureType.adbe_pkcs7_detached, numWidgets := 1,
    signedRangeBounds := [0, 10, 20, 100], signerName := "A", subjectDN := "CN=A",
    signingTime := 0, hashAlgorithm := HashAlgorithm.HASH_AlgSHA256,
    sigValStatus := SignatureValidationStatus.SIGNATURE_VALID,
    certValStatus := CertificateValidationStatus.CERTIFICATE_TRUSTED }

/-- An empty (never signed) signature field with two widgets. -/
def emptyFieldTwoWidgets : FormFieldSignature :=
  { signedField with signature := none, checkedSignature := none, numWidgets := 2 }

/-- Configuration for the C1 counterexample: `-add-signature -sign 1`. -/
def cxC1cfg : Config :=
  { baseConfig with addNewSignature := true, signatureNumber := 1 }

/-- Environment for the C1 counterexample: both filenames given, but the
input PDF fails to open (`isOk()` false). -/
def cxC1env : Env :=
  { baseEnv with
    argc := 3,
    doc := { isOk := false, hasPageOne := true, signatureFields := [] } }

/-- C1 counterexample: with `-add-signature -sign 1` on a file that fails to
open, the document open is attempted first (the `openDocument` event occurs)
and the process exits with status 1, not 99 — contradicting the claim that
the usage rejection happens before any document I/O regardless of whether
the input opens successfully. -/
theorem C1_counterexample :
    (pdfsigMain cxC1cfg cxC1env).1 = 1 ∧ (pdfsigMain cxC1cfg cxC1env).1 ≠ 99 ∧
      Event.openDocument "in.pdf" ∈ (pdfsigMain cxC1cfg cxC1env).2 := by
  decide

/-- C1 (amended): an invocation whose parsed flags set both `-add-signature`
and `-sign <N>` with `N > 0` exits with usage-error status 99, but only
after the input PDF has been opened (the `openDocument` event precedes the
rejection); when the document fails to open the exit status is 1 instead. -/
theorem C1_add_sign_rejected_after_open (cfg : Config) (env : Env)
    (hp : env.parseOk = true) (hv : cfg.printVersion = false)
    (hh : cfg.printHelp = false) (hl : cfg.listNicknames = false)
    (ha : 2 ≤ env.argc) (hok : env.doc.isOk = true)
    (hadd : cfg.addNewSignature = true) (hn : 0 < cfg.signatureNumber) :
    pdfsigMain cfg env = (99, [Event.openDocument env.inputFile, Event.usage]) := by
  have h2 : ¬ env.argc < 2 := Nat.not_lt.mpr ha
  simp [pdfsigMain, hp, hv, hh, hl, hok, hadd, hn, h2]

/-- C1 witness: the amended theorem applied to a concrete invocation. -/
theorem C1_witness :
    pdfsigMain cxC1cfg { cxC1env with doc := emptyDoc } =
      (99, [Event.openDocument "in.pdf", Event.usage]) :=
  C1_add_sign_rejected_after_open cxC1cfg { cxC1env with doc := emptyDoc }
    rfl rfl rfl rfl (by decide) rfl rfl (by decide)

/-- C2 counterexample: the image of the field-name character map over the
full support `{1..15}` of `uniform_int_distribution<>(1, 15)` is exactly
`"123456789ABCDEF"`; the character `'0'` is not in it, and a run of the
generator whose random source steps through every residue produces no `'0'`
— contradicting the claim that all 16 hexadecimal symbols, `'0'` included,
are producible at every position. -/
theorem C2_counterexample :
    distribSupport.map hexCharOfValue = "123456789ABCDEF".data ∧
      '0' ∉ distribSupport.map hexCharOfValue ∧
      ((genFieldName (fun k => k)).data.all (fun c => c ≠ '0')) = true := by
  refine ⟨by decide, by decide, by decide⟩

/-- Every character the generator can append — `hexCharOfValue (1 + v)` for
a draw residue `v < 15` — lies in the 15-symbol alphabet `[1-9A-F]`. -/
theorem hexCharOfValue_distrib_mem (v : Nat) (hv : v < 15) :
    hexCharOfValue (1 + v) ∈ ("123456789ABCDEF".data) := by
  interval_cases v <;> decide

/-- C2 (amended): for every state of the random source, the generated field
name has exactly 32 characters, each drawn from the 15-symbol alphabet
`[1-9A-F]` (uniform over those 15 symbols); the symbol `'0'` is never
produced because the distribution is `uniform_int_distribution<>(1, 15)`. -/
theorem C2_genFieldName_length_alphabet (stream : Nat → Nat) :
    (genFieldName stream).length = 32 ∧
      ∀ c ∈ (genFieldName stream).data, c ∈ ("123456789ABCDEF".data) := by
  constructor
  · simp [genFieldName, String.length]
  · intro c hc
    simp only [genFieldName, List.mem_map, List.mem_range] at hc
    obtain ⟨i, _, rfl⟩ := hc
    have h15 : stream i % 15 < 15 := Nat.mod_lt _ (by decide)
    exact hexCharOfValue_distrib_mem (stream i % 15) h15

/-- C2 witness: the amended theorem applied to the all-zero random source. -/
theorem C2_witness :
    '1' ∈ ("123456789ABCDEF".data) :=
  (C2_genFieldName_length_alphabet (fun _ => 0)).2 '1' (by decide)

/-- Configuration for the C3 counterexample: `-dump`. -/
def cxC3cfg : Config :=
  { baseConfig with dumpSignatures := true }

/-- C3 counterexample: under `-dump`, a successfully opened document with
zero signature fields still produces the status-2 "no signatures" outcome —
contradicting the claim that `-dump` changes that outcome. -/
theorem C3_counterexample :
    cxC3cfg.dumpSignatures = true ∧ (pdfsigMain cxC3cfg baseEnv).1 = 2 ∧
      Event.noSignaturesMsg "in.pdf" ∈ (pdfsigMain cxC3cfg baseEnv).2 := by
  decide

/-- C3 (amended): for every successfully opened document with zero signature
fields (in a non-signing invocation with exactly one filename), the "no
signatures" message is printed and the exit status is 2 — including under
`-dump`; only `-list-nicks` avoids this outcome, by returning before the
document is opened. -/
theorem C3_no_signatures_exit2 (cfg : Config) (env : Env)
    (hp : env.parseOk = true) (hv : cfg.printVersion = false)
    (hh : cfg.printHelp = false) (hl : cfg.listNicknames = false)
    (ha : env.argc = 2) (hok : env.doc.isOk = true)
    (hadd : cfg.addNewSignature = false) (hn : cfg.signatureNumber ≤ 0)
    (hz : env.doc.signatureFields = []) :
    pdfsigMain cfg env =
      (2, [Event.openDocument env.inputFile, Event.noSignaturesMsg env.inputFile]) := by
  have h2 : ¬ env.argc < 2 := by omega
  have h3 : ¬ 2 < env.argc := by omega
  have hn' : ¬ 0 < cfg.signatureNumber := by omega
  simp [pdfsigMain, hp, hv, hh, hl, hok, hadd, hn', h2, h3, hz]

/-- C3 witness: the amended theorem applied to a `-dump` invocation on a
document with zero signature fields. -/
theorem C3_witness :
    pdfsigMain cxC3cfg baseEnv =
      (2, [Event.openDocument "in.pdf", Event.noSignaturesMsg "in.pdf"]) :=
  C3_no_signatures_exit2 cxC3cfg baseEnv rfl rfl rfl rfl rfl rfl rfl (by decide) rfl

/-- Configuration for the C4 counterexample: `-add-signature -nick me` with
only the input filename. -/
def cxC4cfg : Config :=
  { baseConfig with addNewSignature := true, certNickname := "me" }

/-- C4 counterexample: `-add-signature` with the output PDF missing exits
with status 2 (after opening the input), not with usage-error status 99 as
the claim states for every missing required positional argument. -/
theorem C4_counterexample :
    (pdfsigMain cxC4cfg baseEnv).1 = 2 ∧ (pdfsigMain cxC4cfg baseEnv).1 ≠ 99 ∧
      Event.outputFilenameNeededMsg ∈ (pdfsigMain cxC4cfg baseEnv).2 := by
  decide

/-- C4 (amended): a missing input PDF (in a non-`-list-nicks` invocation)
exits with usage-error status 99; a missing output PDF when adding a
signature or signing an existing field exits with status 2 and the
"output filename must be given" message, after the input PDF is opened. -/
theorem C4_missing_positional (cfg : Config) (env : Env)
    (hp : env.parseOk = true) (hv : cfg.printVersion = false)
    (hh : cfg.printHelp = false) (hl : cfg.listNicknames = false) :
    (env.argc < 2 → pdfsigMain cfg env = (99, [Event.usage])) ∧
    (env.argc = 2 → env.doc.isOk = true → cfg.addNewSignature = true →
      cfg.signatureNumber ≤ 0 →
      pdfsigMain cfg env =
        (2, [Event.openDocument env.inputFile, Event.outputFilenameNeededMsg])) ∧
    (env.argc = 2 → env.doc.isOk = true → cfg.addNewSignature = false →
      0 < cfg.signatureNumber →
      pdfsigMain cfg env =
        (2, [Event.openDocument env.inputFile, Event.outputFilenameNeededMsg])) := by
  refine ⟨fun ha => ?_, fun ha hok hadd hn => ?_, fun ha hok hadd hn => ?_⟩
  · simp [pdfsigMain, hp, hv, hh, hl, ha]
  · have h2 : ¬ env.argc < 2 := by omega
    have hn' : ¬ 0 < cfg.signatureNumber := by omega
    simp [pdfsigMain, hp, hv, hh, hl, ha, hok, hadd, hn', h2]
  · have h2 : ¬ env.argc < 2 := by omega
    simp [pdfsigMain, hp, hv, hh, hl, ha, hok, hadd, hn, h2]

/-- C4 witness: the amended theorem applied to three concrete invocations —
no input filename; `-add-signature` without an output; `-sign 1` without an
output. -/
theorem C4_witness :
    pdfsigMain baseConfig { baseEnv with argc := 1 } = (99, [Event.usage]) ∧
    pdfsigMain cxC4cfg baseEnv =
      (2, [Event.openDocument "in.pdf", Event.outputFilenameNeededMsg]) ∧
    pdfsigMain { baseConfig with signatureNumber := 1 } baseEnv =
      (2, [Event.openDocument "in.pdf", Event.outputFilenameNeededMsg]) :=
  ⟨(C4_missing_positional baseConfig { baseEnv with argc := 1 } rfl rfl rfl rfl).1
      (by decide),
   (C4_missing_positional cxC4cfg baseEnv rfl rfl rfl rfl).2.1 rfl rfl rfl (by decide),
   (C4_missing_positional { baseConfig with signatureNumber := 1 } baseEnv
      rfl rfl rfl rfl).2.2 rfl rfl rfl (by decide)⟩

/-- The dump loop starting at index `start` on a list of fields that all
carry raw signature content succeeds (exit 0) and emits, per field in
order, a `dumpSigLine` whose index continues from `start` and whose path is
the spec's dump-name formula. -/
theorem dumpLoop_enumFrom (filename : String) (count : Nat) :
    ∀ (fields : List FormFieldSignature) (start : Nat),
      (∀ f ∈ fields, f.signature.isSome = true) →
      dumpLoop filename count fields start =
        (0, (List.enumFrom start fields).map (fun p =>
          Event.dumpSigLine p.1 ((p.2.signature.getD []).length)
            (specDumpName filename p.1 count))) := by
  intro fields
  induction fields with
  | nil => intro start _; simp [dumpLoop, List.enumFrom]
  | cons f rest ih =>
      intro start h
      obtain ⟨bytes, hb⟩ := Option.isSome_iff_exists.mp (h f (List.mem_cons_self f rest))
      have ihr := ih (start + 1) (fun g hg => h g (List.mem_cons_of_mem f hg))
      simp [dumpLoop, dumpSignature, hb, List.enumFrom, ihr, specDumpName, zero_pad,
        digit_width, formatIntWidth, numberOfCharacters]

/-- C5: for every signature field dumped in dump mode (all fields carrying
raw signature content), the loop exits 0 and the output file name of the
field at 0-based index `i` equals
`basename(input) + ".sig" + zero_pad(i, digit_width(count))`, with `i`
ranging over `[0, count)` in document order. -/
theorem C5_dump_names (filename : String) (fields : List FormFieldSignature)
    (hsig : ∀ f ∈ fields, f.signature.isSome = true) :
    dumpLoop filename fields.length fields 0 =
      (0, fields.enum.map (fun p =>
        Event.dumpSigLine p.1 ((p.2.signature.getD []).length)
          (specDumpName filename p.1 fields.length))) := by
  have h := dumpLoop_enumFrom filename fields.length fields 0 hsig
  simpa [List.enum] using h

/-- Fields for the C5 witness: two populated signature fields. -/
def wC5fields : List FormFieldSignature :=
  [signedField, { signedField with signature := some [7] }]

/-- C5 witness: the theorem applied to a concrete two-field document. -/
theorem C5_witness :
    dumpLoop "dir/in.pdf" wC5fields.length wC5fields 0 =
      (0, wC5fields.enum.map (fun p =>
        Event.dumpSigLine p.1 ((p.2.signature.getD []).length)
          (specDumpName "dir/in.pdf" p.1 wC5fields.length))) :=
  C5_dump_names "dir/in.pdf" wC5fields (by decide)

/-- C6: in report mode, a certificate-validation line is printed for a field
iff that field's signature validation status is `SIGNATURE_VALID` and
certificate checking was not disabled by `-nocert`. -/
theorem C6_cert_line_iff (cfg : Config) (i : Nat) (f : FormFieldSignature) :
    (∃ s, Event.certificateValidationLine s ∈ reportField cfg i f) ↔
      (f.sigValStatus = SignatureValidationStatus.SIGNATURE_VALID ∧
        cfg.dontVerifyCert = false) := by
  by_cases h4 : f.signedRangeBounds.length = 4 <;>
  by_cases hc : (f.checkedSignature.isSome ∧
      f.checkedFileSize = f.signedRangeBounds.getD 3 0) <;>
  by_cases hval : f.sigValStatus = SignatureValidationStatus.SIGNATURE_VALID <;>
  by_cases hd : cfg.dontVerifyCert = true <;>
  simp [reportField, h4, hc, hval, hd] <;>
  (intro x; split <;> simp)

/-- C6 witness: the theorem applied to a concrete valid signature field with
certificate checking enabled. -/
theorem C6_witness :
    signedField.sigValStatus = SignatureValidationStatus.SIGNATURE_VALID ∧
      baseConfig.dontVerifyCert = false ∧
      (∃ s, Event.certificateValidationLine s ∈ reportField baseConfig 0 signedField) :=
  ⟨rfl, rfl, (C6_cert_line_iff baseConfig 0 signedField).mpr ⟨rfl, rfl⟩⟩

/-- C7: for a field whose signed-range bounds are `[s0, s1, s2, s3]`, the
report prints "Total document signed" iff the checked signature exists and
the file size reported alongside it equals `s3`, and prints "Not total
document signed" otherwise. -/
theorem C7_total_document (cfg : Config) (i : Nat) (f : FormFieldSignature)
    (s0 s1 s2 s3 : Int) (h4 : f.signedRangeBounds = [s0, s1, s2, s3]) :
    ((Event.totalDocumentSigned ∈ reportField cfg i f) ↔
        (f.checkedSignature.isSome = true ∧ f.checkedFileSize = s3)) ∧
    ((Event.notTotalDocumentSigned ∈ reportField cfg i f) ↔
        ¬ (f.checkedSignature.isSome = true ∧ f.checkedFileSize = s3)) := by
  by_cases hc : (f.checkedSignature.isSome = true ∧ f.checkedFileSize = s3) <;>
  by_cases hval : f.sigValStatus = SignatureValidationStatus.SIGNATURE_VALID <;>
  by_cases hd : cfg.dontVerifyCert = true <;>
  simp [reportField, h4, hc, hval, hd]

/-- C7 witness: the theorem applied to a concrete field whose checked
signature exists and covers the whole file. -/
theorem C7_witness :
    ((Event.totalDocumentSigned ∈ reportField baseConfig 0 signedField) ↔
        (signedField.checkedSignature.isSome = true ∧
          signedField.checkedFileSize = 100)) ∧
    ((Event.notTotalDocumentSigned ∈ reportField baseConfig 0 signedField) ↔
        ¬ (signedField.checkedSignature.isSome = true ∧
          signedField.checkedFileSize = 100)) :=
  C7_total_document baseConfig 0 signedField 0 10 20 100 rfl

/-- C8: signing an existing field by ordinal — with a valid ordinal, an
output path, a nickname, and an accessible certificate store — whose target
field is already populated prints the "already signed" message, exits with
status 2, and never reaches the engine's `signDocument` call (no
`signDocumentCall` event occurs). -/
theorem C8_already_signed (cfg : Config) (env : Env)
    (hp : env.parseOk = true) (hv : cfg.printVersion = false)
    (hh : cfg.printHelp = false) (hl : cfg.listNicknames = false)
    (ha : 2 ≤ env.argc) (ha2 : env.argc ≠ 2) (hok : env.doc.isOk = true)
    (hadd : cfg.addNewSignature = false) (hn : 0 < cfg.signatureNumber)
    (hle : cfg.signatureNumber ≤ (env.doc.signatureFields.length : Int))
    (hnick : cfg.certNickname.length ≠ 0)
    (hnss : env.nssNeedsPassword = false)
    (hsigned : (env.doc.signatureFields.getD (cfg.signatureNumber - 1).toNat
        dummyField).checkedSignature.isSome = true) :
    pdfsigMain cfg env =
      (2, [Event.openDocument env.inputFile,
           Event.alreadySignedMsg cfg.signatureNumber]) ∧
    ∀ o n d, Event.signDocumentCall o n d ∉ (pdfsigMain cfg env).2 := by
  have h2 : ¬ env.argc < 2 := Nat.not_lt.mpr ha
  have hlt : ¬ ((env.doc.signatureFields.length : Int) < cfg.signatureNumber) :=
    not_lt.mpr hle
  have hsigned' := hsigned
  simp only [List.getD_eq_getElem?_getD, Int.pred_toNat] at hsigned'
  have hmain : pdfsigMain cfg env =
      (2, [Event.openDocument env.inputFile,
           Event.alreadySignedMsg cfg.signatureNumber]) := by
    simp [pdfsigMain, hp, hv, hh, hl, hok, hadd, hn, h2, ha2, hlt, hnick,
      getAvailableSigningCertificates, hnss, hsigned']
  refine ⟨hmain, ?_⟩
  intro o n d hmem
  rw [hmain] at hmem
  simp at hmem

/-- Environment for the C8 witness: `pdfsig in.pdf out.pdf -sign 1 -nick me`
on a document whose only signature field is already populated. -/
def wC8env : Env :=
  { baseEnv with
    argc := 3,
    doc := { isOk := true, hasPageOne := true, signatureFields := [signedField] } }

/-- Configuration for the C8 witness. -/
def wC8cfg : Config :=
  { baseConfig with signatureNumber := 1, certNickname := "me" }

/-- C8 witness: the theorem applied to the concrete already-signed field. -/
theorem C8_witness :
    pdfsigMain wC8cfg wC8env =
      (2, [Event.openDocument "in.pdf", Event.alreadySignedMsg 1]) ∧
    ∀ o n d, Event.signDocumentCall o n d ∉ (pdfsigMain wC8cfg wC8env).2 :=
  C8_already_signed wC8cfg wC8env rfl rfl rfl rfl (by decide) (by decide) rfl rfl
    (by decide) (by decide) (by decide) rfl (by decide)

/-- The ordinal named by a report-mode per-field header, if any. -/
def ordinalOfReportEvent : Event → Option Nat
  | Event.sigHeader n => some n
  | _ => none

/-- The ordinal named by a dump-mode per-field message, if any. -/
def ordinalOfDumpEvent : Event → Option Nat
  | Event.dumpSigLine n _ _ => some n
  | Event.cannotDumpMsg n => some n
  | _ => none

/-- Configuration for the C9 counterexample: `-dump`. -/
def cxC9cfg : Config :=
  { baseConfig with dumpSignatures := true }

/-- Environment for the C9 counterexample: a document with exactly one
(populated) signature field. -/
def cxC9env : Env :=
  { baseEnv with
    doc := { isOk := true, hasPageOne := true, signatureFields := [signedField] } }

/-- C9 counterexample: dumping a one-signature document prints the per-field
message for the first field with ordinal 0 ("Signature #0"), not 1 — so
dump-mode per-field messages are not 1-based as the claim states. -/
theorem C9_counterexample :
    (pdfsigMain cxC9cfg cxC9env).2 =
      [Event.openDocument "in.pdf", Event.dumpingHeader 1,
       Event.dumpSigLine 0 3 "in.pdf.sig0"] ∧
    Event.sigHeader 1 ∉ (pdfsigMain cxC9cfg cxC9env).2 := by
  decide

/-- C9 (amended): report-mode per-field headers are 1-based (the field at
0-based index `i` is announced with ordinal `i + 1`), while dump-mode
per-field messages ("Signature #N ..." and "Cannot dump signature #N") use
the 0-based index `i` itself. -/
theorem C9_ordinals (cfg : Config) (i : Nat) (f : FormFieldSignature)
    (filename : String) (count : Nat) :
    (reportField cfg i f).filterMap ordinalOfReportEvent = [i + 1] ∧
      ((dumpSignature i count f filename).2).filterMap ordinalOfDumpEvent = [i] := by
  constructor
  · by_cases h4 : f.signedRangeBounds.length = 4 <;>
    by_cases hc : (f.checkedSignature.isSome ∧
        f.checkedFileSize = f.signedRangeBounds.getD 3 0) <;>
    by_cases hval : f.sigValStatus = SignatureValidationStatus.SIGNATURE_VALID <;>
    by_cases hd : cfg.dontVerifyCert = true <;>
    simp [reportField, h4, hc, hval, hd, ordinalOfReportEvent] <;>
    (split <;> simp [ordinalOfReportEvent])
  · cases hs : f.signature <;> simp [dumpSignature, hs, ordinalOfDumpEvent]

/-- C10: on the `-sign <N>` path with `-etsi`, when the target field is
unsigned but its widget count differs from 1, the run exits with status 2
and the trace shows the `setSignatureType(ETSI_CAdES_detached)` mutation
event occurring before the widget-count failure message — the field's
signature type has already been mutated when the precondition check fails,
so the failure path is not atomic with respect to that state. -/
theorem C10_etsi_set_before_widget_check (cfg : Config) (env : Env)
    (hp : env.parseOk = true) (hv : cfg.printVersion = false)
    (hh : cfg.printHelp = false) (hl : cfg.listNicknames = false)
    (ha : 2 ≤ env.argc) (ha2 : env.argc ≠ 2) (hok : env.doc.isOk = true)
    (hadd : cfg.addNewSignature = false) (hn : 0 < cfg.signatureNumber)
    (hle : cfg.signatureNumber ≤ (env.doc.signatureFields.length : Int))
    (hnick : cfg.certNickname.length ≠ 0)
    (hnss : env.nssNeedsPassword = false)
    (hunsigned : (env.doc.signatureFields.getD (cfg.signatureNumber - 1).toNat
        dummyField).checkedSignature = none)
    (hetsi : cfg.etsiCAdESdetached = true)
    (hw : (env.doc.signatureFields.getD (cfg.signatureNumber - 1).toNat
        dummyField).numWidgets ≠ 1) :
    pdfsigMain cfg env =
      (2, [Event.openDocument env.inputFile,
           Event.setSignatureTypeCall (cfg.signatureNumber - 1).toNat
             SignatureType.ETSI_CAdES_detached,
           Event.unexpectedWidgetsMsg
             (env.doc.signatureFields.getD (cfg.signatureNumber - 1).toNat
               dummyField).numWidgets]) := by
  have h2 : ¬ env.argc < 2 := Nat.not_lt.mpr ha
  have hlt : ¬ ((env.doc.signatureFields.length : Int) < cfg.signatureNumber) :=
    not_lt.mpr hle
  have hunsigned' := hunsigned
  have hw' := hw
  simp only [List.getD_eq_getElem?_getD, Int.pred_toNat] at hunsigned' hw'
  simp [pdfsigMain, hp, hv, hh, hl, hok, hadd, hn, h2, ha2, hlt, hnick,
    getAvailableSigningCertificates, hnss, hunsigned', hetsi, hw']

/-- Environment for the C10 witness: `pdfsig in.pdf out.pdf -sign 1 -etsi
-nick me` on a document whose only field is unsigned with two widgets. -/
def wC10env : Env :=
  { baseEnv with
    argc := 3,
    doc := { isOk := true, hasPageOne := true, signatureFields := [emptyFieldTwoWidgets] } }

/-- Configuration for the C10 witness. -/
def wC10cfg : Config :=
  { baseConfig with
    signatureNumber := 1,
    etsiCAdESdetached := true,
    certNickname := "me" }

/-- C10 witness: the theorem applied to the concrete two-widget field. -/
theorem C10_witness :
    pdfsigMain wC10cfg wC10env =
      (2, [Event.openDocument "in.pdf",
           Event.setSignatureTypeCall 0 SignatureType.ETSI_CAdES_detached,
           Event.unexpectedWidgetsMsg 2]) :=
  C10_etsi_set_before_widget_check wC10cfg wC10env rfl rfl rfl rfl (by decide)
    (by decide) rfl rfl (by decide) (by decide) (by decide) rfl (by decide) rfl
    (by decide)
